import Mathlib

/-!
Shallow embedding of the nodejs-graceful-shutdown library.

Source files embedded here:
  - src/lib/signals.js          (signal table and codeNumber)
  - src/lib/server-shutdown.js  (ServerKiller: the four-phase shutdown pipeline)
  - src/unnamed/part_000        (ServerGracefulShutdown facade, readiness
                                 coordinator, module-level lifecycle state,
                                 option resolution, signal handlers)

Modelling conventions:
  - JS callbacks become explicit return values: a callback invoked with an
    error argument becomes an `Option String` result (some = error object,
    none = success / callback invoked with no error).
  - The async library combinators are embedded with their documented
    semantics: async.waterfall runs tasks in order and, as soon as a task
    passes a truthy error to its callback, skips the remaining tasks and
    calls the final callback with that error; async.parallel starts every
    task and reports the first error.
  - Timers (setTimeout) and process.exit are not executed; they are recorded
    as events/actions in the output so that scheduling claims are statable.
  - Module-level mutable bindings (terminatedBy, readinessCheckTasks,
    checkingReadiness, isReady) become an explicit GlobalState record that
    every stateful operation threads.
-/

namespace GracefulShutdown

/-! ## src/lib/signals.js -/

/-- The signal table from src/lib/signals.js: `{ SIGINT: 3, SIGTERM: 15 }`. -/
def signals : List (String × Nat) := [("SIGINT", 3), ("SIGTERM", 15)]

/-- Embeds `codeNumber(signal) { return signals[signal] || 1 }`: a missing
key yields `undefined` and a zero value would be falsy, so both fall back
to 1. -/
def codeNumber (signal : String) : Nat :=
  match signals.lookup signal with
  | some n => if n = 0 then 1 else n
  | none => 1

/-! ## src/lib/server-shutdown.js (ServerKiller) -/

/-- A finalizer callback, modelled by its name (`fn.name`) and by the value
it passes to its completion callback (`some msg` = an error, `none` =
success). -/
structure Finalizer where
  name : String
  result : Option String
deriving DecidableEq, Repr

/-- Observable events produced by one run of the shutdown pipeline. -/
inductive Event where
  | timerScheduled (ms : Int)
  | drained
  | finalizerRun (name : String)
  | exitScheduled (delayMs : Nat) (exitCode : Nat)
  | onDoneCalled
deriving DecidableEq, Repr

/-- True exactly on the `exitScheduled` event of phase 4 (destroyServer). -/
def isExitScheduled : Event → Bool
  | .exitScheduled _ _ => true
  | _ => false

/-- Phase 1, `waitGracePeriod`: schedules a timer for
`gracePeriodMilliseconds` and completes without error. -/
def waitGracePeriod (gracePeriodMilliseconds : Int) : List Event × Option String :=
  ([.timerScheduled gracePeriodMilliseconds], none)

/-- Phase 2, `drainConnections`: delegates to `serv.shutdown(cb)` (the
external http-shutdown collaborator) and completes without error. -/
def drainConnections : List Event × Option String :=
  ([.drained], none)

/-- Phase 3, `runFinalizers`: wraps each finalizer in a task and runs them
through `async.parallel`, passing the first error (or null) to the
waterfall callback. -/
def runFinalizers (finalizers : List Finalizer) : List Event × Option String :=
  (finalizers.map (fun f => .finalizerRun f.name),
   (finalizers.filterMap (fun f => f.result)).head?)

/-- Phase 4, `destroyServer`: schedules `process.exit(128 + codeNumber
signal)` after a fixed 1000ms delay, then calls its callback with no
error. -/
def destroyServer (signal : String) : List Event × Option String :=
  ([.exitScheduled 1000 (128 + codeNumber signal)], none)

/-- The `async.waterfall` combinator over pre-evaluated tasks: runs tasks in
order; when a task reports an error the remaining tasks are not executed
and the error goes straight to the final callback. -/
def waterfall : List (List Event × Option String) → List Event × Option String
  | [] => ([], none)
  | t :: rest =>
    match t.2 with
    | some e => (t.1, some e)
    | none =>
      let r := waterfall rest
      (t.1 ++ r.1, r.2)

/-- `ServerKiller.gracefulShutdown(server, signal, finalizers, callback)`:
runs the four phases through async.waterfall; the final waterfall callback
ignores its error argument and invokes `callback()` (the onDone event). -/
def gracefulShutdown (gracePeriodMilliseconds : Int) (signal : String)
    (finalizers : List Finalizer) : List Event :=
  (waterfall [waitGracePeriod gracePeriodMilliseconds, drainConnections,
              runFinalizers finalizers, destroyServer signal]).1 ++ [.onDoneCalled]

/-! ## src/unnamed/part_000: module-level lifecycle and readiness state -/

/-- A readiness-check callback from part_000, modelled by its name and the
value it passes to its completion callback. -/
structure Check where
  name : String
  result : Option String
deriving DecidableEq, Repr

/-- The module-level mutable bindings of part_000:
`let terminatedBy; let readinessCheckTasks; let checkingReadiness = false;
let isReady = false;`. These are process-wide singletons shared by every
ServerGracefulShutdown instance. -/
structure GlobalState where
  terminatedBy : Option String
  readinessCheckTasks : Option (List Check)
  checkingReadiness : Bool
  isReady : Bool
deriving DecidableEq, Repr

/-- The fresh module state at load time. -/
def initialState : GlobalState :=
  { terminatedBy := none, readinessCheckTasks := none,
    checkingReadiness := false, isReady := false }

/-- Embeds `isTerminated() { return terminatedBy !== undefined }`. -/
def isTerminated (g : GlobalState) : Bool :=
  g.terminatedBy.isSome

/-- Embeds `ServerGracefulShutdown.checkReadiness(callback)`.
Takes the instance field `this.readinessChecks` and the module state;
returns the new module state, the argument the callback receives
(`some msg` = an error, `none` = success) and, as an observation, the list
of names of the checks that were actually executed by async.parallel. -/
def checkReadiness (readinessChecks : List Check) (g : GlobalState) :
    GlobalState × Option String × List String :=
  if g.checkingReadiness = true then
    (g, some "already checking readiness", [])
  else
    let tasks :=
      match g.readinessCheckTasks with
      | some ts => ts
      | none => readinessChecks
    let executed := tasks.map (fun c => c.name)
    match (tasks.filterMap (fun c => c.result)).head? with
    | some e =>
      ({ g with readinessCheckTasks := some tasks, checkingReadiness := false },
       some e, executed)
    | none =>
      ({ g with readinessCheckTasks := some tasks, checkingReadiness := false,
                isReady := true },
       none, executed)

/-- Which of the two HTTP objects a `.send` call is issued on; part_000
sends on `request` in three branches and on `response` in the failure
branch of the checkReadiness callback. -/
inductive Target where
  | request
  | response
deriving DecidableEq, Repr

/-- One `.send(status, body)` call as observed by the probe caller. -/
structure Send where
  target : Target
  status : Nat
  body : String
deriving DecidableEq, Repr

/-- Embeds `ServerGracefulShutdown.readiness(request, response)`: the
cached-ready flag is consulted first, then the lifecycle state, then the
probe delegates to checkReadiness. Returns the new module state, the
single send that was issued, and the names of the checks executed. -/
def readiness (readinessChecks : List Check) (g : GlobalState) :
    GlobalState × Send × List String :=
  if g.isReady = true then
    (g, ⟨.request, 200, "READY"⟩, [])
  else if isTerminated g = true then
    (g, ⟨.request, 503, "NOT-READY"⟩, [])
  else
    let r := checkReadiness readinessChecks g
    match r.2.1 with
    | some _ => (r.1, ⟨.response, 503, "NOT-READY"⟩, r.2.2)
    | none => (r.1, ⟨.request, 200, "READY"⟩, r.2.2)

/-- A sequence of n readiness probes against the same instance, threading
the module state and concatenating the executed-check observations. -/
def runProbes (readinessChecks : List Check) (g : GlobalState) :
    Nat → GlobalState × List String
  | 0 => (g, [])
  | Nat.succ n =>
    let r := readiness readinessChecks g
    let rest := runProbes readinessChecks r.1 n
    (rest.1, r.2.2 ++ rest.2)

/-! ## src/unnamed/part_000: the per-signal handler installed by enable -/

/-- What a signal-handler invocation does besides updating state: either
`process.exit(128 + 1)` (second signal) or scheduling the delayed
`gracefulShutdown.terminate(signal, ...)` via setTimeout. -/
inductive HandlerAction where
  | forceExit (exitCode : Nat)
  | scheduleTerminate (signal : String) (delayMs : Int)
deriving DecidableEq, Repr

/-- Embeds the handler installed by `enable` for each configured signal:
`if (isTerminated()) process.exit(128 + 1); terminatedBy = signal;
setTimeout(... terminate(signal, ...), gracefulShutdown.delay)`.
process.exit terminates the process, so in the force-exit branch no state
is changed and nothing further runs. -/
def signalHandler (signal : String) (delay : Int) (g : GlobalState) :
    GlobalState × HandlerAction :=
  if isTerminated g = true then
    (g, .forceExit (128 + 1))
  else
    ({ g with terminatedBy := some signal }, .scheduleTerminate signal delay)

/-! ## src/unnamed/part_000: options, ensureOptions and the constructor -/

/-- A JS value sitting in a numeric option slot, as distinguished by the
code: `undefined`, a number (the typeof test reports number), or any non-number
value. -/
inductive JsNumOpt where
  | undef
  | num (n : Int)
  | nonNum (tag : String)
deriving DecidableEq, Repr

/-- An element of a finalizers/readinessChecks array: either a function
(with its `fn.name`, an anonymous function having name "", and a body tag
distinguishing different functions that share a name) or a non-function
value. -/
inductive CbVal where
  | fn (name : String) (body : Nat)
  | nonFn (tag : String)
deriving DecidableEq, Repr

/-- The `.name` property read by addFunction on values already stored in a
collection (collections only ever hold functions). -/
def CbVal.fnName : CbVal → String
  | .fn n _ => n
  | .nonFn _ => ""

/-- A JS value sitting in an array option slot, as distinguished by the
code: `undefined`, an Array (`v.constructor === Array`), or any other
value. -/
inductive ArrOpt where
  | undef
  | arr (xs : List CbVal)
  | nonArr (tag : String)
deriving DecidableEq, Repr

/-- A ServerKiller instance, holding the gracePeriodMilliseconds its
constructor stored. -/
structure ServerKillerInst where
  gracePeriodMilliseconds : Option Int
deriving DecidableEq, Repr

/-- A JS value sitting in the killer option slot: `undefined`, a
ServerKiller instance, or any other value (`instanceof` fails). -/
inductive KillerOpt where
  | undef
  | killer (k : ServerKillerInst)
  | notKiller (tag : String)
deriving DecidableEq, Repr

/-- The recognized option slots of the ServerGracefulShutdown constructor. -/
structure Options where
  delay : JsNumOpt
  gracePeriodMilliseconds : JsNumOpt
  finalizers : ArrOpt
  readinessChecks : ArrOpt
  killer : KillerOpt
deriving DecidableEq, Repr

/-- The options record after ensureOptions has mutated it. -/
structure ResolvedOptions where
  delay : Int
  gracePeriodMilliseconds : Int
  finalizers : List CbVal
  readinessChecks : List CbVal
  killer : ServerKillerInst
deriving DecidableEq, Repr

/-- `const defaultGracePeriodMilliseconds = 5 * 1000`. -/
def defaultGracePeriodMilliseconds : Int := 5 * 1000

/-- Embeds `const environmentGracePeriodMilliseconds = env ?
parseInt(env) * 1000 : undefined`, with the environment variable (whole
seconds) modelled as an `Option Int` parameter. -/
def environmentGracePeriodMilliseconds (envSeconds : Option Int) : Option Int :=
  envSeconds.map (fun s => s * 1000)

/-- The first ensureOptions clause: a non-number delay (including
undefined) is replaced by 0; a number — negative included — is kept. -/
def resolveDelay : JsNumOpt → Int
  | .num n => n
  | _ => 0

/-- The second ensureOptions clause: a non-number gracePeriodMilliseconds
(including undefined) is replaced by the 5000 default; a numeric value is
overwritten by the environment-derived value when that is defined,
otherwise kept. -/
def resolveGracePeriod (envSeconds : Option Int) : JsNumOpt → Int
  | .num n =>
    match environmentGracePeriodMilliseconds envSeconds with
    | some e => e
    | none => n
  | _ => defaultGracePeriodMilliseconds

/-- The ensureOptions clauses for finalizers/readinessChecks: undefined
becomes [], a non-Array value throws the given TypeError message, an
Array passes through. -/
def resolveArr (msg : String) : ArrOpt → Except String (List CbVal)
  | .undef => .ok []
  | .arr xs => .ok xs
  | .nonArr _ => .error msg

/-- The ensureOptions killer clauses: undefined is replaced by
`new ServerKiller({gracePeriodMilliseconds: options.gracePeriodMilliseconds})`
(using the already-resolved grace period); a value that is not a
ServerKiller instance throws. -/
def resolveKiller (gracePeriodMilliseconds : Int) :
    KillerOpt → Except String ServerKillerInst
  | .undef => .ok ⟨some gracePeriodMilliseconds⟩
  | .killer k => .ok k
  | .notKiller _ => .error "option killer has to be an instance of ServerKiller"

/-- Embeds `ServerGracefulShutdown.ensureOptions(options)` from part_000:
the clauses run in source order and the first throw aborts construction. -/
def ensureOptions (envSeconds : Option Int) (o : Options) :
    Except String ResolvedOptions := do
  let delay := resolveDelay o.delay
  let gp := resolveGracePeriod envSeconds o.gracePeriodMilliseconds
  let fins ← resolveArr "finalizers options has to be an array of Functions" o.finalizers
  let checks ← resolveArr "readinessChecks options has to be an array of Functions"
      o.readinessChecks
  let k ← resolveKiller gp o.killer
  return ⟨delay, gp, fins, checks, k⟩

/-- Embeds the helper `addFunction(fn, collection)` from part_000: throws
on a non-function or an unnamed function; a duplicate name is a logged
no-op; otherwise the function is appended. -/
def addFunction (f : CbVal) (collection : List CbVal) :
    Except String (List CbVal) :=
  match f with
  | .nonFn _ =>
    .error "provided function has to have \"server\" and \"callback\" arguments"
  | .fn name body =>
    if name = "" then
      .error "provided function has to be a named function"
    else if collection.any (fun g => CbVal.fnName g == name) then
      .ok collection
    else
      .ok (collection ++ [.fn name body])

/-- The constructor loop `options.finalizers.forEach(this.addFinalizer...)`:
registers the values in order, propagating the first throw. -/
def addFunctions (fs : List CbVal) (collection : List CbVal) :
    Except String (List CbVal) :=
  match fs with
  | [] => .ok collection
  | f :: rest => do
    let c ← addFunction f collection
    addFunctions rest c

/-- The instance fields a successful ServerGracefulShutdown construction
produces. -/
structure SGSInstance where
  gracePeriodMilliseconds : Int
  delay : Int
  killer : ServerKillerInst
  shutdownFinalizers : List CbVal
  readinessChecks : List CbVal
deriving DecidableEq, Repr

/-- Embeds `new ServerGracefulShutdown(server, options)`: ensureOptions
first, then registration of the option-provided finalizers and readiness
checks through addFunction; any throw aborts construction synchronously. -/
def construct (envSeconds : Option Int) (o : Options) :
    Except String SGSInstance := do
  let r ← ensureOptions envSeconds o
  let fins ← addFunctions r.finalizers []
  let checks ← addFunctions r.readinessChecks []
  return ⟨r.gracePeriodMilliseconds, r.delay, r.killer, fins, checks⟩

/-- Embeds `addFinalizer(fn)` on an instance: delegates to addFunction on
this.shutdownFinalizers. -/
def addFinalizer (f : CbVal) (i : SGSInstance) : Except String SGSInstance := do
  let c ← addFunction f i.shutdownFinalizers
  return { i with shutdownFinalizers := c }

/-- Embeds `listFinalizers()`: `[].concat(this.shutdownFinalizers)` returns
a fresh array with the same elements, which as a pure value is the list
itself. -/
def listFinalizers (i : SGSInstance) : List CbVal :=
  i.shutdownFinalizers

/-- True on array elements that addFunction rejects: non-functions and
anonymous functions. -/
def isInvalidCb : CbVal → Bool
  | .nonFn _ => true
  | .fn n _ => n == ""

/-! ## Claim theorems -/

/-- C8: for every signal name, the exit code computed by the destroy phase
equals 128 plus the signal table entry; a signal absent from the table
falls back to code 1, so the exit code is 129; terminating with SIGTERM
yields 128 + 15 = 143. -/
theorem C8_destroy_exit_code (signal : String) :
    destroyServer signal = ([Event.exitScheduled 1000 (128 + codeNumber signal)], none) ∧
    (signals.lookup signal = none → codeNumber signal = 1 ∧ 128 + codeNumber signal = 129) ∧
    codeNumber "SIGTERM" = 15 ∧ 128 + codeNumber "SIGTERM" = 143 := by
  refine ⟨rfl, ?_, by decide, by decide⟩
  intro h
  simp [codeNumber, h]

/-- C8 witness: evaluates the theorem at the unknown signal SIGUSR2 and at
SIGTERM. -/
theorem C8_destroy_exit_code_witness :
    codeNumber "SIGUSR2" = 1 ∧ 128 + codeNumber "SIGUSR2" = 129 ∧
    destroyServer "SIGTERM" =
      ([Event.exitScheduled 1000 (128 + codeNumber "SIGTERM")], none) :=
  ⟨((C8_destroy_exit_code "SIGUSR2").2.1 (by decide)).1,
   ((C8_destroy_exit_code "SIGUSR2").2.1 (by decide)).2,
   (C8_destroy_exit_code "SIGTERM").1⟩

/-- C5: a checkReadiness call issued while the checkingReadiness guard is
active fails immediately with the already-checking error, leaves the
module state unchanged and invokes no registered check. -/
theorem C5_single_flight (readinessChecks : List Check) (g : GlobalState)
    (h : g.checkingReadiness = true) :
    checkReadiness readinessChecks g = (g, some "already checking readiness", []) := by
  simp [checkReadiness, h]

/-- C5 witness: evaluates the theorem at a concrete in-flight state. -/
theorem C5_single_flight_witness :
    checkReadiness [⟨"db", none⟩] { initialState with checkingReadiness := true } =
      ({ initialState with checkingReadiness := true },
       some "already checking readiness", []) :=
  C5_single_flight [⟨"db", none⟩] { initialState with checkingReadiness := true } rfl

/-- C4: a signal-handler invocation while the lifecycle state is already
terminating or terminated force-exits with the fixed code 128 + 1 = 129
and starts no graceful sequence; otherwise terminatedBy is set to the
signal synchronously in the returned state, while the terminate call is
merely scheduled with the configured delay. -/
theorem C4_signal_handler (signal : String) (delay : Int) (g : GlobalState) :
    (isTerminated g = true →
      signalHandler signal delay g = (g, HandlerAction.forceExit 129)) ∧
    (isTerminated g = false →
      signalHandler signal delay g =
        ({ g with terminatedBy := some signal },
         HandlerAction.scheduleTerminate signal delay)) := by
  constructor <;> intro h <;> simp [signalHandler, h]

/-- C4 witness: evaluates the theorem for a second SIGTERM on an already
terminating state and for a first SIGTERM on the fresh state. -/
theorem C4_signal_handler_witness :
    signalHandler "SIGTERM" 0 { initialState with terminatedBy := some "SIGTERM" } =
      ({ initialState with terminatedBy := some "SIGTERM" },
       HandlerAction.forceExit 129) ∧
    signalHandler "SIGTERM" 0 initialState =
      ({ initialState with terminatedBy := some "SIGTERM" },
       HandlerAction.scheduleTerminate "SIGTERM" 0) :=
  ⟨(C4_signal_handler "SIGTERM" 0
      { initialState with terminatedBy := some "SIGTERM" }).1 rfl,
   (C4_signal_handler "SIGTERM" 0 initialState).2 rfl⟩

/-- C2 counterexample: in the reachable state where the cached-ready flag
was set by a successful startup evaluation and the process has since been
terminated by SIGTERM, the readiness probe answers 200 READY, not the
503 NOT-READY the claim requires for every probe issued while the
lifecycle state is terminating or terminated. -/
theorem C2_counterexample :
    isTerminated { initialState with terminatedBy := some "SIGTERM", isReady := true }
      = true ∧
    (readiness [] { initialState with terminatedBy := some "SIGTERM", isReady := true }).2.1
      = ⟨Target.request, 200, "READY"⟩ ∧
    (200 : Nat) ≠ 503 := by decide

/-- C2 (amended): a readiness probe issued while the lifecycle state is
terminating or terminated and the cached-ready flag is not set reports
503 NOT-READY, attempts no check evaluation and leaves the state
unchanged. -/
theorem C2_terminated_probe (readinessChecks : List Check) (g : GlobalState)
    (hterm : isTerminated g = true) (hready : g.isReady = false) :
    readiness readinessChecks g = (g, ⟨Target.request, 503, "NOT-READY"⟩, []) := by
  simp [readiness, hterm, hready]

/-- C2 witness: evaluates the amended theorem at a terminating state with a
passing check registered. -/
theorem C2_terminated_probe_witness :
    readiness [⟨"db", none⟩] { initialState with terminatedBy := some "SIGTERM" } =
      ({ initialState with terminatedBy := some "SIGTERM" },
       ⟨Target.request, 503, "NOT-READY"⟩, []) :=
  C2_terminated_probe [⟨"db", none⟩]
    { initialState with terminatedBy := some "SIGTERM" } rfl rfl

/-- C10: the compiled readiness task list is memoized in module-level state
at the first checkReadiness call, even when that evaluation fails; every
later evaluation executes exactly the memoized tasks, ignoring the
instance readinessChecks field it was passed, so checks registered after
the first evaluation (or belonging to another instance) never run. -/
theorem C10_task_memoization (readinessChecks : List Check) (g : GlobalState) :
    (∀ ts, g.checkingReadiness = false → g.readinessCheckTasks = some ts →
      (checkReadiness readinessChecks g).2.2 = ts.map (fun c => c.name) ∧
      (checkReadiness readinessChecks g).1.readinessCheckTasks = some ts) ∧
    (g.checkingReadiness = false → g.readinessCheckTasks = none →
      (checkReadiness readinessChecks g).1.readinessCheckTasks = some readinessChecks) := by
  constructor
  · intro ts hc hm
    cases hh : (ts.filterMap (fun c => c.result)).head? <;>
      simp [checkReadiness, hc, hm, hh]
  · intro hc hm
    cases hh : (readinessChecks.filterMap (fun c => c.result)).head? <;>
      simp [checkReadiness, hc, hm, hh]

/-- C10 witness: a first evaluation whose only check fails still memoizes
the task list, and a later evaluation from an instance carrying a
different check list executes only the memoized check. -/
theorem C10_task_memoization_witness :
    (checkReadiness [⟨"db", some "down"⟩] initialState).1.readinessCheckTasks =
      some [⟨"db", some "down"⟩] ∧
    (checkReadiness [⟨"late", none⟩]
        { initialState with readinessCheckTasks := some [⟨"db", some "down"⟩] }).2.2 =
      ["db"] :=
  ⟨(C10_task_memoization [⟨"db", some "down"⟩] initialState).2 rfl rfl,
   ((C10_task_memoization [⟨"late", none⟩]
      { initialState with readinessCheckTasks := some [⟨"db", some "down"⟩] }).1
      [⟨"db", some "down"⟩] rfl rfl).1⟩

/-- C9: registering a function named test1 and then one named test2 on an
instance with no prior finalizers makes listFinalizers return exactly
those two entries in insertion order; registering a function under an
already-used name is a silent no-op that returns the collection unchanged,
keeping the original entry even when the new function differs. -/
theorem C9_registry_order_and_dedup (b1 b2 b b' : Nat) (name : String)
    (i : SGSInstance) (coll : List CbVal) :
    (i.shutdownFinalizers = [] →
      ((addFinalizer (.fn "test1" b1) i).bind (addFinalizer (.fn "test2" b2))).map
          listFinalizers =
        .ok [.fn "test1" b1, .fn "test2" b2]) ∧
    (name ≠ "" → CbVal.fn name b ∈ coll →
      addFunction (.fn name b') coll = .ok coll) := by
  constructor
  · intro h
    obtain ⟨gp, d, k, fins, checks⟩ := i
    simp only at h
    subst h
    rfl
  · intro hn hm
    have hany : coll.any (fun g => CbVal.fnName g == name) = true :=
      List.any_eq_true.mpr ⟨CbVal.fn name b, hm, by simp [CbVal.fnName]⟩
    simp [addFunction, hn, hany]

/-- C9 witness: evaluates the theorem on a concrete instance and on a
duplicate registration whose second function has a different body. -/
theorem C9_registry_order_and_dedup_witness :
    ((addFinalizer (.fn "test1" 0) ⟨5000, 0, ⟨some 5000⟩, [], []⟩).bind
        (addFinalizer (.fn "test2" 1))).map listFinalizers =
      .ok [.fn "test1" 0, .fn "test2" 1] ∧
    addFunction (.fn "x" 7) [.fn "x" 3] = .ok [.fn "x" 3] :=
  ⟨(C9_registry_order_and_dedup 0 1 3 7 "x" ⟨5000, 0, ⟨some 5000⟩, [], []⟩
      [.fn "x" 3]).1 rfl,
   (C9_registry_order_and_dedup 0 1 3 7 "x" ⟨5000, 0, ⟨some 5000⟩, [], []⟩
      [.fn "x" 3]).2 (by decide) (by simp)⟩

/-- C1 counterexample: with a single finalizer that reports an error,
async.waterfall aborts after the finalizer phase, so the phase-4
exitScheduled event never occurs, contradicting the claim that a
finalizer-phase error does not prevent destroyServer from running; the
onDone callback is still invoked exactly once. -/
theorem C1_counterexample :
    (gracefulShutdown 500 "SIGTERM" [⟨"metrics", some "boom"⟩]).filter isExitScheduled
      = [] ∧
    (gracefulShutdown 500 "SIGTERM" [⟨"metrics", some "boom"⟩]).count Event.onDoneCalled
      = 1 ∧
    ([⟨"metrics", some "boom"⟩] : List Finalizer).filterMap (fun f => f.result) ≠ [] := by
  decide

/-- C1 (amended): for every invocation of gracefulShutdown the onDone
callback is invoked exactly once; when no finalizer reports an error the
four phases all run and phase 4 schedules the signal-derived process exit
before onDone fires; when a finalizer reports an error the waterfall
aborts and phase 4 (destroyServer) is skipped, onDone still firing
exactly once. -/
theorem C1_pipeline_termination (gp : Int) (signal : String)
    (finalizers : List Finalizer) :
    (gracefulShutdown gp signal finalizers).count Event.onDoneCalled = 1 ∧
    (finalizers.filterMap (fun f => f.result) = [] →
      gracefulShutdown gp signal finalizers =
        [.timerScheduled gp, .drained] ++
          finalizers.map (fun f => .finalizerRun f.name) ++
          [.exitScheduled 1000 (128 + codeNumber signal), .onDoneCalled]) ∧
    (finalizers.filterMap (fun f => f.result) ≠ [] →
      (gracefulShutdown gp signal finalizers).filter isExitScheduled = []) := by
  have hnotin : Event.onDoneCalled ∉ finalizers.map (fun f => Event.finalizerRun f.name) := by
    simp
  have hfil : (finalizers.map (fun f => Event.finalizerRun f.name)).filter isExitScheduled
      = [] := by
    simp [List.filter_eq_nil_iff, isExitScheduled]
  refine ⟨?_, ?_, ?_⟩
  · cases hh : (finalizers.filterMap (fun f => f.result)).head? <;>
      simp [gracefulShutdown, waterfall, waitGracePeriod, drainConnections,
            runFinalizers, destroyServer, hh, List.count_append,
            List.count_eq_zero.mpr hnotin, List.count_singleton]
  · intro h
    have hh : (finalizers.filterMap (fun f => f.result)).head? = none := by
      simp [h]
    simp [gracefulShutdown, waterfall, waitGracePeriod, drainConnections,
          runFinalizers, destroyServer, hh]
  · intro h
    obtain ⟨e, hh⟩ : ∃ e, (finalizers.filterMap (fun f => f.result)).head? = some e := by
      cases hx : (finalizers.filterMap (fun f => f.result)).head? with
      | none => exact absurd (List.head?_eq_none_iff.mp hx) h
      | some e => exact ⟨e, rfl⟩
    simp [gracefulShutdown, waterfall, waitGracePeriod, drainConnections,
          runFinalizers, destroyServer, hh, List.filter_append, hfil, isExitScheduled]

/-- C1 witness: evaluates the amended theorem on an error-free run and on a
run with a failing finalizer. -/
theorem C1_pipeline_termination_witness :
    (gracefulShutdown 500 "SIGTERM" [⟨"f1", none⟩]).count Event.onDoneCalled = 1 ∧
    gracefulShutdown 500 "SIGTERM" [⟨"f1", none⟩] =
      [.timerScheduled 500, .drained] ++
        ([⟨"f1", none⟩] : List Finalizer).map (fun f => .finalizerRun f.name) ++
        [.exitScheduled 1000 (128 + codeNumber "SIGTERM"), .onDoneCalled] ∧
    (gracefulShutdown 500 "SIGTERM" [⟨"bad", some "boom"⟩]).filter isExitScheduled = [] :=
  ⟨(C1_pipeline_termination 500 "SIGTERM" [⟨"f1", none⟩]).1,
   (C1_pipeline_termination 500 "SIGTERM" [⟨"f1", none⟩]).2.1 (by decide),
   (C1_pipeline_termination 500 "SIGTERM" [⟨"bad", some "boom"⟩]).2.2 (by decide)⟩

/-- Once the cached-ready flag is set, every readiness probe short-circuits
to 200 READY without touching the state or running checks, so a probe
sequence from a ready state executes nothing. -/
theorem runProbes_ready (readinessChecks : List Check) :
    ∀ (n : Nat) (g : GlobalState), g.isReady = true →
      runProbes readinessChecks g n = (g, [])
  | 0, _, _ => rfl
  | Nat.succ n, g, h => by
    simp [runProbes, readiness, h, runProbes_ready readinessChecks n g h]

/-- C3 counterexample: checkReadiness itself never consults the cached
isReady flag, so a direct call to the evaluation operation made after the
cached-ready flag has been set re-invokes the memoized check, contradicting
the claim that such a call runs without re-invoking any registered check. -/
theorem C3_counterexample :
    (GlobalState.mk none (some [⟨"db", none⟩]) false true).isReady = true ∧
    (checkReadiness [] (GlobalState.mk none (some [⟨"db", none⟩]) false true)).2.2
      = ["db"] ∧
    (["db"] : List String) ≠ [] := by decide

/-- C3 (amended): once the cached-ready flag is set, the readiness probe
returns 200 READY immediately, leaves the state unchanged and invokes no
registered check, and over any sequence of N + 1 readiness probes from the
fresh module state with all checks passing, each underlying check is
invoked exactly once; a direct checkReadiness call, by contrast, does not
consult the cached flag and re-executes the memoized task list. -/
theorem C3_checks_run_once (readinessChecks : List Check) (g : GlobalState) (N : Nat) :
    (g.isReady = true →
      readiness readinessChecks g = (g, ⟨Target.request, 200, "READY"⟩, [])) ∧
    ((∀ c ∈ readinessChecks, c.result = none) →
      (runProbes readinessChecks initialState (N + 1)).2 =
        readinessChecks.map (fun c => c.name)) ∧
    (∀ ts, g.checkingReadiness = false → g.readinessCheckTasks = some ts →
      (checkReadiness readinessChecks g).2.2 = ts.map (fun c => c.name)) := by
  refine ⟨?_, ?_, ?_⟩
  · intro h
    simp [readiness, h]
  · intro h
    have hh : (readinessChecks.filterMap (fun c => c.result)).head? = none := by
      simp [List.filterMap_eq_nil_iff.mpr h]
    have hfirst :
        readiness readinessChecks initialState =
          (GlobalState.mk none (some readinessChecks) false true,
           ⟨Target.request, 200, "READY"⟩, readinessChecks.map (fun c => c.name)) := by
      simp [readiness, checkReadiness, initialState, isTerminated, hh]
    simp [runProbes, hfirst,
          runProbes_ready readinessChecks N
            (GlobalState.mk none (some readinessChecks) false true) rfl]
  · intro ts hc hm
    cases hh : (ts.filterMap (fun c => c.result)).head? <;>
      simp [checkReadiness, hc, hm, hh]

/-- C3 witness: evaluates the theorem on a ready state, on three probes
from the fresh state with one passing check, and on a direct call with a
memoized task. -/
theorem C3_checks_run_once_witness :
    readiness [⟨"db", none⟩] { initialState with isReady := true } =
      ({ initialState with isReady := true }, ⟨Target.request, 200, "READY"⟩, []) ∧
    (runProbes [⟨"db", none⟩] initialState 3).2 = ["db"] ∧
    (checkReadiness [] (GlobalState.mk none (some [⟨"db", none⟩]) false true)).2.2
      = ["db"] :=
  ⟨(C3_checks_run_once [⟨"db", none⟩] { initialState with isReady := true } 2).1 rfl,
   (C3_checks_run_once [⟨"db", none⟩] initialState 2).2.1 (by decide),
   (C3_checks_run_once []
      (GlobalState.mk none (some [⟨"db", none⟩]) false true) 0).2.2
      [⟨"db", none⟩] rfl rfl⟩

/-- Inversion for ensureOptions: a successful resolution carries the delay
and grace period computed by the two numeric clauses. -/
theorem ensureOptions_ok_fields (envSeconds : Option Int) (o : Options)
    (r : ResolvedOptions) (h : ensureOptions envSeconds o = .ok r) :
    r.delay = resolveDelay o.delay ∧
    r.gracePeriodMilliseconds =
      resolveGracePeriod envSeconds o.gracePeriodMilliseconds := by
  cases hf : resolveArr "finalizers options has to be an array of Functions"
      o.finalizers with
  | error e => simp [ensureOptions, hf, bind, Except.bind] at h
  | ok fins =>
    cases hr : resolveArr "readinessChecks options has to be an array of Functions"
        o.readinessChecks with
    | error e => simp [ensureOptions, hf, hr, bind, Except.bind] at h
    | ok checks =>
      cases hk : resolveKiller
          (resolveGracePeriod envSeconds o.gracePeriodMilliseconds) o.killer with
      | error e => simp [ensureOptions, hf, hr, hk, bind, Except.bind] at h
      | ok k =>
        simp [ensureOptions, hf, hr, hk, bind, Except.bind, pure, Except.pure] at h
        subst h
        exact ⟨rfl, rfl⟩

/-- C6 counterexample: with the environment grace-period override present
(7 seconds) and no caller-supplied gracePeriodMilliseconds, the resolved
grace period is the 5000ms default, not the 7000ms the environment
prescribes — the environment value does not win over the default. -/
theorem C6_counterexample :
    ensureOptions (some 7) ⟨.undef, .undef, .undef, .undef, .undef⟩ =
      .ok ⟨0, 5000, [], [], ⟨some 5000⟩⟩ ∧
    environmentGracePeriodMilliseconds (some 7) = some 7000 ∧
    (5000 : Int) ≠ 7000 :=
  ⟨rfl, rfl, by decide⟩

/-- C6 (amended): the environment-derived grace period (seconds × 1000)
overrides a caller-supplied numeric gracePeriodMilliseconds, but when the
caller supplies no numeric value the 5000ms default is used and the
environment value is ignored; any successful construction resolves its
grace period by exactly this rule. -/
theorem C6_environment_override (envSeconds : Option Int) (o : Options) :
    (∀ n s, o.gracePeriodMilliseconds = JsNumOpt.num n → envSeconds = some s →
      resolveGracePeriod envSeconds o.gracePeriodMilliseconds = s * 1000) ∧
    ((∀ n, o.gracePeriodMilliseconds ≠ JsNumOpt.num n) →
      resolveGracePeriod envSeconds o.gracePeriodMilliseconds =
        defaultGracePeriodMilliseconds) ∧
    (∀ r, ensureOptions envSeconds o = Except.ok r →
      r.gracePeriodMilliseconds =
        resolveGracePeriod envSeconds o.gracePeriodMilliseconds) := by
  refine ⟨?_, ?_, ?_⟩
  · intro n s hn hs
    subst hs
    simp [resolveGracePeriod, hn, environmentGracePeriodMilliseconds]
  · intro h
    cases hg : o.gracePeriodMilliseconds with
    | num n => exact absurd hg (h n)
    | undef => simp [resolveGracePeriod, hg]
    | nonNum t => simp [resolveGracePeriod, hg]
  · intro r h
    exact (ensureOptions_ok_fields envSeconds o r h).2

/-- C6 witness: evaluates the theorem with the environment set to 7 seconds
against a caller-supplied 100ms grace period and against an absent one. -/
theorem C6_environment_override_witness :
    resolveGracePeriod (some 7) (JsNumOpt.num 100) = 7 * 1000 ∧
    resolveGracePeriod (some 7) JsNumOpt.undef = defaultGracePeriodMilliseconds ∧
    (ResolvedOptions.mk 0 7000 [] [] ⟨some 7000⟩).gracePeriodMilliseconds =
      resolveGracePeriod (some 7) (JsNumOpt.num 100) :=
  ⟨(C6_environment_override (some 7)
      ⟨.undef, .num 100, .undef, .undef, .undef⟩).1 100 7 rfl rfl,
   (C6_environment_override (some 7)
      ⟨.undef, .undef, .undef, .undef, .undef⟩).2.1 (by intro n; simp),
   (C6_environment_override (some 7)
      ⟨.undef, .num 100, .undef, .undef, .undef⟩).2.2
      ⟨0, 7000, [], [], ⟨some 7000⟩⟩ rfl⟩

/-- Registering a sequence that contains a non-function or an anonymous
function throws, whatever the collection already holds. -/
theorem addFunctions_error_of_invalid (xs : List CbVal) :
    ∀ coll, xs.any isInvalidCb = true → ∃ e, addFunctions xs coll = .error e := by
  induction xs with
  | nil => intro coll h; simp at h
  | cons f rest ih =>
    intro coll h
    cases f with
    | nonFn t =>
      exact ⟨"provided function has to have \"server\" and \"callback\" arguments",
        by simp [addFunctions, addFunction, bind, Except.bind]⟩
    | fn name body =>
      by_cases hn : name = ""
      · exact ⟨"provided function has to be a named function",
          by simp [addFunctions, addFunction, hn, bind, Except.bind]⟩
      · have hrest : rest.any isInvalidCb = true := by
          simpa [List.any_cons, isInvalidCb, hn] using h
        by_cases hd : coll.any (fun g => CbVal.fnName g == name) = true
        · obtain ⟨e, he⟩ := ih coll hrest
          exact ⟨e, by simp [addFunctions, addFunction, hn, hd, bind, Except.bind, he]⟩
        · obtain ⟨e, he⟩ := ih (coll ++ [CbVal.fn name body]) hrest
          exact ⟨e, by simp [addFunctions, addFunction, hn, hd, bind, Except.bind, he]⟩

/-- C7 counterexample: an options value whose delay is the non-number
string "soon" and whose grace period is the negative number -5 constructs
successfully (delay silently defaulted to 0, the negative grace period
kept), contradicting the claim that such construction fails with
InvalidConfiguration. -/
theorem C7_counterexample :
    construct none
        ⟨JsNumOpt.nonNum "soon", JsNumOpt.num (-5),
         ArrOpt.undef, ArrOpt.undef, KillerOpt.undef⟩ =
      Except.ok ⟨-5, 0, ⟨some (-5)⟩, [], []⟩ ∧
    ((-5 : Int) < 0) :=
  ⟨rfl, by decide⟩

/-- C7 (amended): construction performs no validation of the grace period
or delay — non-numeric values are replaced by the defaults (0 and 5000)
and negative numbers are accepted, construction succeeding for every
delay and grace value when the remaining options are absent; construction
fails synchronously exactly for a non-array finalizers or readinessChecks
option, for an array element that is not a named function, and for a
killer option that is not a ServerKiller instance. -/
theorem C7_construction_validation (envSeconds : Option Int) (o : Options) :
    (∀ t, o.finalizers = ArrOpt.nonArr t →
      construct envSeconds o =
        .error "finalizers options has to be an array of Functions") ∧
    ((∀ t, o.finalizers ≠ ArrOpt.nonArr t) →
      ∀ t, o.readinessChecks = ArrOpt.nonArr t →
      construct envSeconds o =
        .error "readinessChecks options has to be an array of Functions") ∧
    ((∀ t, o.finalizers ≠ ArrOpt.nonArr t) →
      (∀ t, o.readinessChecks ≠ ArrOpt.nonArr t) →
      ∀ t, o.killer = KillerOpt.notKiller t →
      construct envSeconds o =
        .error "option killer has to be an instance of ServerKiller") ∧
    (∀ xs, o.finalizers = ArrOpt.arr xs → xs.any isInvalidCb = true →
      (∀ t, o.readinessChecks ≠ ArrOpt.nonArr t) →
      (∀ t, o.killer ≠ KillerOpt.notKiller t) →
      ∃ e, construct envSeconds o = .error e) ∧
    (o.finalizers = ArrOpt.undef → o.readinessChecks = ArrOpt.undef →
      o.killer = KillerOpt.undef →
      construct envSeconds o = .ok
        ⟨resolveGracePeriod envSeconds o.gracePeriodMilliseconds, resolveDelay o.delay,
         ⟨some (resolveGracePeriod envSeconds o.gracePeriodMilliseconds)⟩, [], []⟩) := by
  refine ⟨?_, ?_, ?_, ?_, ?_⟩
  · intro t h
    simp [construct, ensureOptions, resolveArr, h, bind, Except.bind]
  · intro hf t h
    cases hff : o.finalizers with
    | nonArr u => exact absurd hff (hf u)
    | undef =>
      simp [construct, ensureOptions, resolveArr, hff, h, bind, Except.bind]
    | arr xs =>
      simp [construct, ensureOptions, resolveArr, hff, h, bind, Except.bind]
  · intro hf hr t h
    cases hff : o.finalizers with
    | nonArr u => exact absurd hff (hf u)
    | undef =>
      cases hrr : o.readinessChecks with
      | nonArr u => exact absurd hrr (hr u)
      | undef =>
        simp [construct, ensureOptions, resolveArr, resolveKiller, hff, hrr, h,
              bind, Except.bind]
      | arr ys =>
        simp [construct, ensureOptions, resolveArr, resolveKiller, hff, hrr, h,
              bind, Except.bind]
    | arr xs =>
      cases hrr : o.readinessChecks with
      | nonArr u => exact absurd hrr (hr u)
      | undef =>
        simp [construct, ensureOptions, resolveArr, resolveKiller, hff, hrr, h,
              bind, Except.bind]
      | arr ys =>
        simp [construct, ensureOptions, resolveArr, resolveKiller, hff, hrr, h,
              bind, Except.bind]
  · intro xs hff hbad hr hk
    obtain ⟨e, he⟩ := addFunctions_error_of_invalid xs [] hbad
    cases hrr : o.readinessChecks with
    | nonArr u => exact absurd hrr (hr u)
    | undef =>
      cases hkk : o.killer with
      | notKiller u => exact absurd hkk (hk u)
      | undef =>
        exact ⟨e, by simp [construct, ensureOptions, resolveArr, resolveKiller,
          hff, hrr, hkk, he, bind, Except.bind, pure, Except.pure]⟩
      | killer k =>
        exact ⟨e, by simp [construct, ensureOptions, resolveArr, resolveKiller,
          hff, hrr, hkk, he, bind, Except.bind, pure, Except.pure]⟩
    | arr ys =>
      cases hkk : o.killer with
      | notKiller u => exact absurd hkk (hk u)
      | undef =>
        exact ⟨e, by simp [construct, ensureOptions, resolveArr, resolveKiller,
          hff, hrr, hkk, he, bind, Except.bind, pure, Except.pure]⟩
      | killer k =>
        exact ⟨e, by simp [construct, ensureOptions, resolveArr, resolveKiller,
          hff, hrr, hkk, he, bind, Except.bind, pure, Except.pure]⟩
  · intro h1 h2 h3
    simp [construct, ensureOptions, resolveArr, resolveKiller, addFunctions,
          h1, h2, h3, bind, Except.bind, pure, Except.pure]

/-- C7 witness: evaluates the theorem on the unvalidated-numerics input and
on a non-array finalizers option. -/
theorem C7_construction_validation_witness :
    construct none
        ⟨JsNumOpt.nonNum "x", JsNumOpt.num (-5),
         ArrOpt.undef, ArrOpt.undef, KillerOpt.undef⟩ =
      Except.ok ⟨-5, 0, ⟨some (-5)⟩, [], []⟩ ∧
    construct none
        ⟨JsNumOpt.undef, JsNumOpt.undef,
         ArrOpt.nonArr "obj", ArrOpt.undef, KillerOpt.undef⟩ =
      Except.error "finalizers options has to be an array of Functions" :=
  ⟨(C7_construction_validation none
      ⟨JsNumOpt.nonNum "x", JsNumOpt.num (-5),
       ArrOpt.undef, ArrOpt.undef, KillerOpt.undef⟩).2.2.2.2 rfl rfl rfl,
   (C7_construction_validation none
      ⟨JsNumOpt.undef, JsNumOpt.undef,
       ArrOpt.nonArr "obj", ArrOpt.undef, KillerOpt.undef⟩).1 "obj" rfl⟩

end GracefulShutdown
